import Mathlib

/-!
Verification of the publication-cadence engine of the mesh motion sensor
demo (`sensor_motion.c`).

The development shallowly embeds the global state of the application and
the handlers that drive the publish/suppress decisions:

* `mesh_sensor_server_restart_timer`  (sensor_motion.c lines 456-490)
* `mesh_sensor_publish_timer_callback` (lines 573-674)
* `mesh_sensor_value_changed`          (lines 715-755)
* `mesh_sensor_publish`                (lines 760-768)
* `e93196_int_proc`                    (lines 685-699)
* `mesh_sensor_presence_detected_timer_callback` (lines 701-710)
* `mesh_app_notify_period_set`         (lines 438-451)
* `mesh_sensor_server_process_cadence_changed` (lines 542-566)

Times and durations are milliseconds, modelled as `Nat` (the monotone tick
counter of the firmware); sensor values are modelled as `Int` following the
specification data model (`last_value: int32`, `fast_low: int`,
`fast_high: int`).  Cadence trigger deltas, the divisor and the minimum
interval are unsigned (`Nat`) per the specification data model.  Handlers
return the successor state together with the number of calls they make to
`mesh_sensor_publish` (each handler body calls it at most once).
-/

namespace SensorMotion

/-- Cadence configuration of the single motion sensor, the
`p_sensor->cadence` record read by all handlers.  Field names follow the
source.  Field types follow the specification data model (the C struct is
declared in the SDK, outside this repository): unsigned divisor, deltas and
minimum interval, signed fast-cadence bounds. -/
structure Cadence where
  fast_cadence_period_divisor : Nat
  trigger_type_percentage : Bool
  trigger_delta_down : Nat
  trigger_delta_up : Nat
  min_interval : Nat
  fast_cadence_low : Int
  fast_cadence_high : Int
deriving Repr, DecidableEq

/-- Global mutable state of `sensor_motion.c` that the decision engine
reads and writes.  `cadence_timer` holds `some timeout` when the periodic
cadence timer is armed for `timeout` milliseconds and `none` when it is
stopped; `blind_timer` records the deadline of the presence blind-time
timer; `nvram_cadence` models the NVRAM slot used to persist the cadence
record. -/
structure State where
  mesh_sensor_sent_value : Int
  mesh_sensor_pub_value : Int
  mesh_sensor_pub_time : Nat
  mesh_sensor_publish_period : Nat
  mesh_sensor_fast_publish_period : Nat
  mesh_sensor_sleep_max_time : Nat
  presence_detected : Bool
  cadence : Cadence
  cadence_timer : Option Nat
  blind_timer : Option Nat
  nvram_cadence : Option Cadence
deriving Repr, DecidableEq

/-- Blind time constant (seconds) from the source:
`#define MESH_PRESENCE_DETECTED_BLIND_TIME 7`. -/
def MESH_PRESENCE_DETECTED_BLIND_TIME : Nat := 7

/-- Element index of the single motion sensor:
`#define MESH_MOTION_SENSOR_INDEX 0`. -/
def MESH_MOTION_SENSOR_INDEX : Nat := 0

/-- Modelled from the spec: SDK constant naming the Bluetooth SIG company
identifier used by `mesh_app_notify_period_set`; the claims depend only on
equality tests against it, not on its numeric value. -/
def MESH_COMPANY_ID_BT_SIG : Nat := 0xFFFF

/-- Modelled from the spec: SDK constant naming the sensor-server model
identifier used by `mesh_app_notify_period_set`; the claims depend only on
equality tests against it, not on its numeric value. -/
def WICED_BT_MESH_CORE_MODEL_ID_SENSOR_SRV : Nat := 0x1100

/-- `mesh_sensor_get_current_value` (lines 770-773): the current sensor
value is the debounced presence flag, `WICED_TRUE = 1`. -/
def mesh_sensor_get_current_value (s : State) : Int :=
  if s.presence_detected then 1 else 0

/-- `mesh_sensor_publish` (lines 760-768): record the published value in
`mesh_sensor_sent_value` and `mesh_sensor_pub_value` and stamp
`mesh_sensor_pub_time` with the current tick count.  The transport call
`wiced_bt_mesh_model_sensor_server_data` is external and fire-and-forget. -/
def mesh_sensor_publish (s : State) (now : Nat) : State :=
  let v := mesh_sensor_get_current_value s
  { s with mesh_sensor_sent_value := v
           mesh_sensor_pub_value := v
           mesh_sensor_pub_time := now }

/-- `mesh_sensor_server_restart_timer` (lines 456-490): stop the cadence
timer; if the publish period is zero return with the timer stopped;
otherwise derive the fast publish period from the divisor, raise the
timeout to `min_interval` when delta triggers are active and the minimum
interval exceeds the timeout, record the timeout as the maximum sleep
budget and arm the timer. -/
def mesh_sensor_server_restart_timer (s : State) : State :=
  let s0 : State := { s with cadence_timer := none }
  if s.mesh_sensor_publish_period = 0 then
    s0
  else
    let timeout1 : Nat :=
      if s.cadence.fast_cadence_period_divisor > 1 then
        s.mesh_sensor_publish_period / s.cadence.fast_cadence_period_divisor
      else
        s.mesh_sensor_publish_period
    let fast1 : Nat :=
      if s.cadence.fast_cadence_period_divisor > 1 then
        s.mesh_sensor_publish_period / s.cadence.fast_cadence_period_divisor
      else
        0
    let timeout2 : Nat :=
      if s.cadence.min_interval ≠ 0 ∧ s.cadence.min_interval > timeout1 ∧
          (s.cadence.trigger_delta_up ≠ 0 ∨ s.cadence.trigger_delta_down ≠ 0) then
        s.cadence.min_interval
      else
        timeout1
    { s0 with mesh_sensor_fast_publish_period := fast1
              mesh_sensor_sleep_max_time := timeout2
              cadence_timer := some timeout2 }

/-- Guard of line 581: the tick is suppressed outright when a minimum
interval is configured and not yet elapsed since the last publication. -/
def min_interval_suppressed (c : Cadence) (elapsed : Nat) : Bool :=
  decide (c.min_interval ≠ 0) && decide (elapsed < c.min_interval)

/-- Guard of line 595: at least one delta trigger is configured. -/
def deltas_configured (c : Cadence) : Bool :=
  decide (c.trigger_delta_up ≠ 0) || decide (c.trigger_delta_down ≠ 0)

/-- Native (non-percentage) delta test of the tick evaluator
(lines 602-603). -/
def native_delta_hit (c : Cadence) (current pub : Int) : Bool :=
  (decide (c.trigger_delta_up ≠ 0) &&
     decide (current ≥ pub + (c.trigger_delta_up : Int)))
  || (decide (c.trigger_delta_down ≠ 0) &&
     decide (current ≤ pub - (c.trigger_delta_down : Int)))

/-- Guard of the percentage delta-up branch (line 612): `trigger_delta_up`
configured and the current value strictly above the last published one. -/
def percent_up_taken (c : Cadence) (current pub : Int) : Bool :=
  decide (c.trigger_delta_up ≠ 0) && decide (pub < current)

/-- Guard of the percentage delta-down branch (line 621): reached only when
the delta-up guard did not fire (it is the `else if` of line 612), with
`trigger_delta_down` configured and the current value strictly below the
last published one. -/
def percent_down_taken (c : Cadence) (current pub : Int) : Bool :=
  !(percent_up_taken c current pub) &&
    decide (c.trigger_delta_down ≠ 0) && decide (current < pub)

/-- Percentage delta test of the tick evaluator (lines 609-630).  Both
branches divide by `current` (the current value), exactly as the source
does. -/
def percent_delta_hit (c : Cadence) (current pub : Int) : Bool :=
  (percent_up_taken c current pub &&
     decide ((current - pub) * 10000 / current > (c.trigger_delta_up : Int)))
  || (percent_down_taken c current pub &&
     decide ((pub - current) * 10000 / current > (c.trigger_delta_down : Int)))

/-- Delta trigger test of the tick evaluator (lines 595-631), dispatching
on `trigger_type_percentage`. -/
def delta_hit (c : Cadence) (current pub : Int) : Bool :=
  if c.trigger_type_percentage then
    percent_delta_hit c current pub
  else
    native_delta_hit c current pub

/-- Fast-cadence window test of the tick evaluator (lines 639-665),
three-way case split on the configured bounds. -/
def fast_cadence_window (low high value : Int) : Bool :=
  if high > low then
    decide (value > low) && decide (value ≤ high)
  else if high < low then
    decide (value ≥ low) || decide (value < high)
  else
    decide (value = low)

/-- `mesh_sensor_publish_timer_callback` (lines 573-674): the periodic tick
evaluator.  Returns the successor state together with the number of
`mesh_sensor_publish` calls it made (0 or 1).  The `pub1`/`pub2`/`pub3`
lets mirror the sequential updates of the `pub_needed` flag in the source;
the timer is restarted in every case before returning. -/
def mesh_sensor_publish_timer_callback (s : State) (now : Nat) : State × Nat :=
  let current_value := mesh_sensor_get_current_value s
  let elapsed := now - s.mesh_sensor_pub_time
  if min_interval_suppressed s.cadence elapsed then
    (mesh_sensor_server_restart_timer s, 0)
  else
    let pub1 : Bool :=
      decide (s.mesh_sensor_publish_period ≠ 0) &&
        decide (elapsed ≥ s.mesh_sensor_publish_period)
    let pub2 : Bool :=
      pub1 || (!pub1 && deltas_configured s.cadence &&
        delta_hit s.cadence current_value s.mesh_sensor_pub_value)
    let pub3 : Bool :=
      pub2 || (!pub2 && decide (s.mesh_sensor_fast_publish_period ≠ 0) &&
        decide (elapsed ≥ s.mesh_sensor_fast_publish_period) &&
        fast_cadence_window s.cadence.fast_cadence_low
          s.cadence.fast_cadence_high current_value)
    if pub3 then
      (mesh_sensor_server_restart_timer (mesh_sensor_publish s now), 1)
    else
      (mesh_sensor_server_restart_timer s, 0)

/-- `mesh_sensor_value_changed` (lines 715-755): the event-driven publish
policy run on every presence transition.  Returns the successor state and
the number of `mesh_sensor_publish` calls (0 or 1). -/
def mesh_sensor_value_changed (s : State) (now : Nat) : State × Nat :=
  if s.mesh_sensor_publish_period ≠ 0 then
    (s, 0)
  else if s.cadence.fast_cadence_period_divisor = 1 ∧
      s.cadence.trigger_delta_up = 0 ∧ s.cadence.trigger_delta_down = 0 then
    (mesh_sensor_publish s now, 1)
  else if s.mesh_sensor_pub_time + s.cadence.min_interval > now then
    (s, 0)
  else if (s.cadence.trigger_delta_down ≠ 0 ∧
        mesh_sensor_get_current_value s <
          s.mesh_sensor_pub_value - (s.cadence.trigger_delta_down : Int)) ∨
      (s.cadence.trigger_delta_up ≠ 0 ∧
        mesh_sensor_get_current_value s >
          s.mesh_sensor_pub_value - (s.cadence.trigger_delta_up : Int)) then
    (mesh_sensor_server_restart_timer (mesh_sensor_publish s now), 1)
  else
    (s, 0)

/-- `e93196_int_proc` (lines 685-699): hardware presence edge.  Rearms the
blind-time timer for `2 * MESH_PRESENCE_DETECTED_BLIND_TIME` seconds and,
when presence was not yet detected, flips the state to detected and runs
`mesh_sensor_value_changed`. -/
def e93196_int_proc (s : State) (now : Nat) : State × Nat :=
  if !s.presence_detected then
    mesh_sensor_value_changed
      { s with
          blind_timer := some (now + 2 * MESH_PRESENCE_DETECTED_BLIND_TIME * 1000)
          presence_detected := true } now
  else
    ({ s with
        blind_timer := some (now + 2 * MESH_PRESENCE_DETECTED_BLIND_TIME * 1000) },
     0)

/-- `mesh_sensor_presence_detected_timer_callback` (lines 701-710): blind
timer expiry; when presence was detected, flips the state to not detected
and runs `mesh_sensor_value_changed`. -/
def mesh_sensor_presence_detected_timer_callback (s : State) (now : Nat) : State × Nat :=
  if s.presence_detected then
    mesh_sensor_value_changed { s with presence_detected := false } now
  else
    (s, 0)

/-- `mesh_app_notify_period_set` (lines 438-451): adopt a new publication
period when the notification addresses the sensor server model, restart the
cadence timer and reset the publication timestamp; reject (and change
nothing) otherwise. -/
def mesh_app_notify_period_set (element_idx company_id model_id period : Nat)
    (s : State) : Bool × State :=
  if element_idx ≠ MESH_MOTION_SENSOR_INDEX ∨
      company_id ≠ MESH_COMPANY_ID_BT_SIG ∨
      model_id ≠ WICED_BT_MESH_CORE_MODEL_ID_SENSOR_SRV then
    (false, s)
  else
    let s1 : State := { s with mesh_sensor_publish_period := period }
    let s2 := mesh_sensor_server_restart_timer s1
    (true, { s2 with mesh_sensor_pub_time := 0 })

/-- `mesh_sensor_server_process_cadence_changed` (lines 542-566): by the
time this handler runs the mesh models library has already written the new
cadence into `p_sensor->cadence`; the handler persists that record to
NVRAM, restarts the cadence timer and resets the publication timestamp.
The handler returns `void` in the source: it has no rejection channel. -/
def mesh_sensor_server_process_cadence_changed (s : State) : State :=
  let s1 : State := { s with nvram_cadence := some s.cadence }
  let s2 := mesh_sensor_server_restart_timer s1
  { s2 with mesh_sensor_pub_time := 0 }

/-- Events driving the decision engine: a cadence-timer tick, a hardware
presence edge, or a blind-timer expiry, each carrying its tick-count
timestamp. -/
inductive MeshEvent where
  | tick : Nat → MeshEvent
  | edge : Nat → MeshEvent
  | blind : Nat → MeshEvent
deriving Repr, DecidableEq

/-- Timestamp of an event. -/
def MeshEvent.time : MeshEvent → Nat
  | .tick t => t
  | .edge t => t
  | .blind t => t

/-- Dispatch one event to its handler. -/
def step (s : State) : MeshEvent → State × Nat
  | .tick t => mesh_sensor_publish_timer_callback s t
  | .edge t => e93196_int_proc s t
  | .blind t => mesh_sensor_presence_detected_timer_callback s t

/-- Run a sequence of events, collecting the timestamps of the events that
produced a publish call. -/
def run (s : State) : List MeshEvent → State × List Nat
  | [] => (s, [])
  | e :: es =>
    let r := step s e
    let rest := run r.1 es
    (rest.1, (if r.2 ≠ 0 then [e.time] else []) ++ rest.2)

/-- Event timestamps are nondecreasing and bounded below by `lb` (the tick
counter is monotone). -/
def times_mono (lb : Nat) : List MeshEvent → Bool
  | [] => true
  | e :: es => decide (lb ≤ e.time) && times_mono e.time es

/-- Tick decision as claim C1 words it: strict branch precedence in which
the first branch whose guard holds fully decides the tick, so that a
configured delta trigger whose condition fails suppresses the tick without
consulting the fast-cadence branch. -/
def tick_decision_claim (s : State) (now : Nat) : Bool :=
  let current_value := mesh_sensor_get_current_value s
  let elapsed := now - s.mesh_sensor_pub_time
  if min_interval_suppressed s.cadence elapsed then
    false
  else if decide (s.mesh_sensor_publish_period ≠ 0) &&
      decide (elapsed ≥ s.mesh_sensor_publish_period) then
    true
  else if deltas_configured s.cadence then
    delta_hit s.cadence current_value s.mesh_sensor_pub_value
  else if decide (s.mesh_sensor_fast_publish_period ≠ 0) &&
      decide (elapsed ≥ s.mesh_sensor_fast_publish_period) then
    fast_cadence_window s.cadence.fast_cadence_low
      s.cadence.fast_cadence_high current_value
  else
    false

/-- Tick decision as amended for claim C1: the fast-cadence branch is also
reached when delta triggers are configured but their condition fails; only
the minimum-interval suppression and a publish decision of an earlier
branch cut the evaluation short. -/
def tick_decision_amended (s : State) (now : Nat) : Bool :=
  let current_value := mesh_sensor_get_current_value s
  let elapsed := now - s.mesh_sensor_pub_time
  if min_interval_suppressed s.cadence elapsed then
    false
  else if decide (s.mesh_sensor_publish_period ≠ 0) &&
      decide (elapsed ≥ s.mesh_sensor_publish_period) then
    true
  else if deltas_configured s.cadence &&
      delta_hit s.cadence current_value s.mesh_sensor_pub_value then
    true
  else if decide (s.mesh_sensor_fast_publish_period ≠ 0) &&
      decide (elapsed ≥ s.mesh_sensor_fast_publish_period) &&
      fast_cadence_window s.cadence.fast_cadence_low
        s.cadence.fast_cadence_high current_value then
    true
  else
    false

/-- Restart-timer algorithm as claim C2 words it literally: `timeout` is
initialized to the publish period and is never replaced by the divided fast
timeout, so the armed deadline stays `publish_period` (or `min_interval`)
even when the fast-cadence divisor is greater than one. -/
def restart_timer_claim (s : State) : State :=
  if s.mesh_sensor_publish_period = 0 then
    { s with cadence_timer := none }
  else
    let fast1 : Nat :=
      if s.cadence.fast_cadence_period_divisor > 1 then
        s.mesh_sensor_publish_period / s.cadence.fast_cadence_period_divisor
      else
        0
    let timeout2 : Nat :=
      if s.cadence.min_interval ≠ 0 ∧
          s.cadence.min_interval > s.mesh_sensor_publish_period ∧
          (s.cadence.trigger_delta_up ≠ 0 ∨ s.cadence.trigger_delta_down ≠ 0) then
        s.cadence.min_interval
      else
        s.mesh_sensor_publish_period
    { s with mesh_sensor_fast_publish_period := fast1
             mesh_sensor_sleep_max_time := timeout2
             cadence_timer := some timeout2 }

/-- Restart-timer algorithm as amended for claim C2: when the divisor is
greater than one, `timeout` itself becomes `publish_period / divisor`, and
that value is also remembered as the fast timeout; the minimum-interval
comparison and the armed deadline then use this divided timeout. -/
def restart_timer_amended (s : State) : State :=
  if s.mesh_sensor_publish_period = 0 then
    { s with cadence_timer := none }
  else
    let fast1 : Nat :=
      if s.cadence.fast_cadence_period_divisor > 1 then
        s.mesh_sensor_publish_period / s.cadence.fast_cadence_period_divisor
      else
        0
    let timeout1 : Nat :=
      if s.cadence.fast_cadence_period_divisor > 1 then
        s.mesh_sensor_publish_period / s.cadence.fast_cadence_period_divisor
      else
        s.mesh_sensor_publish_period
    let timeout2 : Nat :=
      if s.cadence.min_interval ≠ 0 ∧ s.cadence.min_interval > timeout1 ∧
          (s.cadence.trigger_delta_up ≠ 0 ∨ s.cadence.trigger_delta_down ≠ 0) then
        s.cadence.min_interval
      else
        timeout1
    { s with mesh_sensor_fast_publish_period := fast1
             mesh_sensor_sleep_max_time := timeout2
             cadence_timer := some timeout2 }

/-- Guard chain under which the tick evaluator executes the percentage
delta-down division of line 623: the minimum interval has elapsed, the
publish period has not expired, delta triggers are configured, percentage
mode is selected and the delta-down branch guard holds.  The divisor of
that division is `mesh_sensor_get_current_value s`. -/
def tick_percent_down_division_reached (s : State) (now : Nat) : Bool :=
  let elapsed := now - s.mesh_sensor_pub_time
  !(min_interval_suppressed s.cadence elapsed) &&
  !(decide (s.mesh_sensor_publish_period ≠ 0) &&
      decide (elapsed ≥ s.mesh_sensor_publish_period)) &&
  deltas_configured s.cadence &&
  s.cadence.trigger_type_percentage &&
  percent_down_taken s.cadence (mesh_sensor_get_current_value s)
    s.mesh_sensor_pub_value

/-- Percentage delta test as claim C6 words it: the up case only when the
current value strictly exceeds the last published one, the down case only
when it is strictly below, basis points computed as delta times 10000
divided by the current value in both directions, publishing on strict
excess over the configured trigger. -/
def percent_delta_claim (c : Cadence) (current pub : Int) : Bool :=
  (decide (c.trigger_delta_up ≠ 0) && decide (pub < current) &&
     decide ((current - pub) * 10000 / current > (c.trigger_delta_up : Int)))
  || (decide (c.trigger_delta_down ≠ 0) && decide (current < pub) &&
     decide ((pub - current) * 10000 / current > (c.trigger_delta_down : Int)))

/-- Concrete tick state for claim C1: publish period 100 with divisor 10
(hence fast publish period 10), delta-up trigger 5 configured in native
mode, no minimum interval, fast-cadence bounds both 0, presence not
detected, last publication at time 0. -/
def C1_cex_state : State :=
  { mesh_sensor_sent_value := 0
    mesh_sensor_pub_value := 0
    mesh_sensor_pub_time := 0
    mesh_sensor_publish_period := 100
    mesh_sensor_fast_publish_period := 10
    mesh_sensor_sleep_max_time := 10
    presence_detected := false
    cadence :=
      { fast_cadence_period_divisor := 10
        trigger_type_percentage := false
        trigger_delta_down := 0
        trigger_delta_up := 5
        min_interval := 0
        fast_cadence_low := 0
        fast_cadence_high := 0 }
    cadence_timer := some 10
    blind_timer := none
    nvram_cadence := none }

/-- Concrete state for claim C2: publish period 320000 ms, fast-cadence
divisor 32, no delta triggers, no minimum interval. -/
def C2_cex_state : State :=
  { mesh_sensor_sent_value := 0
    mesh_sensor_pub_value := 0
    mesh_sensor_pub_time := 0
    mesh_sensor_publish_period := 320000
    mesh_sensor_fast_publish_period := 0
    mesh_sensor_sleep_max_time := 0
    presence_detected := false
    cadence :=
      { fast_cadence_period_divisor := 32
        trigger_type_percentage := false
        trigger_delta_down := 0
        trigger_delta_up := 0
        min_interval := 0
        fast_cadence_low := 0
        fast_cadence_high := 0 }
    cadence_timer := none
    blind_timer := none
    nvram_cadence := none }

/-- Concrete state for claim C5: publish period 0 and fully unconfigured
cadence (divisor 1, both deltas 0), presence not detected. -/
def C5_wit_state : State :=
  { mesh_sensor_sent_value := 0
    mesh_sensor_pub_value := 0
    mesh_sensor_pub_time := 0
    mesh_sensor_publish_period := 0
    mesh_sensor_fast_publish_period := 0
    mesh_sensor_sleep_max_time := 0
    presence_detected := false
    cadence :=
      { fast_cadence_period_divisor := 1
        trigger_type_percentage := false
        trigger_delta_down := 0
        trigger_delta_up := 0
        min_interval := 1024
        fast_cadence_low := 0
        fast_cadence_high := 0 }
    cadence_timer := none
    blind_timer := none
    nvram_cadence := none }

/-- Concrete cadence for claim C6: percentage trigger mode with both deltas
configured. -/
def C6_wit_cadence : Cadence :=
  { fast_cadence_period_divisor := 1
    trigger_type_percentage := true
    trigger_delta_down := 200
    trigger_delta_up := 300
    min_interval := 0
    fast_cadence_low := 0
    fast_cadence_high := 0 }

/-- Concrete state for claim C7: an arbitrary engine state on which the
period-change notification is exercised. -/
def C7_wit_state : State :=
  { mesh_sensor_sent_value := 0
    mesh_sensor_pub_value := 1
    mesh_sensor_pub_time := 777
    mesh_sensor_publish_period := 0
    mesh_sensor_fast_publish_period := 0
    mesh_sensor_sleep_max_time := 0
    presence_detected := true
    cadence :=
      { fast_cadence_period_divisor := 32
        trigger_type_percentage := false
        trigger_delta_down := 0
        trigger_delta_up := 0
        min_interval := 1024
        fast_cadence_low := 0
        fast_cadence_high := 0 }
    cadence_timer := none
    blind_timer := none
    nvram_cadence := none }

/-- Malformed cadence for claim C8: a fast-cadence period divisor of 0
violates the specification data model invariant `fast_period_divisor ≥ 1`. -/
def C8_bad_cadence : Cadence :=
  { fast_cadence_period_divisor := 0
    trigger_type_percentage := false
    trigger_delta_down := 0
    trigger_delta_up := 0
    min_interval := 1024
    fast_cadence_low := 0
    fast_cadence_high := 0 }

/-- Concrete state for claim C8: the models library has just stored the
malformed cadence `C8_bad_cadence` when the handler runs. -/
def C8_cex_state : State :=
  { mesh_sensor_sent_value := 0
    mesh_sensor_pub_value := 0
    mesh_sensor_pub_time := 5000
    mesh_sensor_publish_period := 320000
    mesh_sensor_fast_publish_period := 0
    mesh_sensor_sleep_max_time := 0
    presence_detected := false
    cadence := C8_bad_cadence
    cadence_timer := none
    blind_timer := none
    nvram_cadence := none }

/-- Concrete state for claim C9: percentage mode, delta-down trigger 5,
current value 0 (presence not detected) and last published value 1. -/
def C9_state : State :=
  { mesh_sensor_sent_value := 1
    mesh_sensor_pub_value := 1
    mesh_sensor_pub_time := 0
    mesh_sensor_publish_period := 0
    mesh_sensor_fast_publish_period := 0
    mesh_sensor_sleep_max_time := 0
    presence_detected := false
    cadence :=
      { fast_cadence_period_divisor := 1
        trigger_type_percentage := true
        trigger_delta_down := 5
        trigger_delta_up := 0
        min_interval := 0
        fast_cadence_low := 0
        fast_cadence_high := 0 }
    cadence_timer := none
    blind_timer := none
    nvram_cadence := none }

/-- Concrete cadence for the claim C9 witness: percentage mode with a
delta-up trigger configured. -/
def C9_up_cadence : Cadence :=
  { fast_cadence_period_divisor := 1
    trigger_type_percentage := true
    trigger_delta_down := 0
    trigger_delta_up := 3
    min_interval := 0
    fast_cadence_low := 0
    fast_cadence_high := 0 }

/-- Concrete state for claim C10: publish period 0, delta-up trigger 2 in
native mode, minimum interval 5 elapsed, presence detected (current value
1) with last published value 0 — the value increased by less than the
configured delta. -/
def C10_wit_state : State :=
  { mesh_sensor_sent_value := 0
    mesh_sensor_pub_value := 0
    mesh_sensor_pub_time := 0
    mesh_sensor_publish_period := 0
    mesh_sensor_fast_publish_period := 0
    mesh_sensor_sleep_max_time := 0
    presence_detected := true
    cadence :=
      { fast_cadence_period_divisor := 1
        trigger_type_percentage := false
        trigger_delta_down := 0
        trigger_delta_up := 2
        min_interval := 5
        fast_cadence_low := 0
        fast_cadence_high := 0 }
    cadence_timer := none
    blind_timer := none
    nvram_cadence := none }

/-- Concrete state for the claim C4 counterexample: publish period 0 and
fully unconfigured cadence but a minimum interval of 20000 ms, larger than
the 14000 ms blind window. -/
def C4_cex_state : State :=
  { mesh_sensor_sent_value := 0
    mesh_sensor_pub_value := 0
    mesh_sensor_pub_time := 0
    mesh_sensor_publish_period := 0
    mesh_sensor_fast_publish_period := 0
    mesh_sensor_sleep_max_time := 0
    presence_detected := false
    cadence :=
      { fast_cadence_period_divisor := 1
        trigger_type_percentage := false
        trigger_delta_down := 0
        trigger_delta_up := 0
        min_interval := 20000
        fast_cadence_low := 0
        fast_cadence_high := 0 }
    cadence_timer := none
    blind_timer := none
    nvram_cadence := none }

/-- Concrete state for the claim C4 witness: publish period 0, delta-up
trigger 2 configured (so the cadence is not fully unconfigured), minimum
interval 5 ms. -/
def C4_wit_state : State :=
  { mesh_sensor_sent_value := 0
    mesh_sensor_pub_value := 0
    mesh_sensor_pub_time := 0
    mesh_sensor_publish_period := 0
    mesh_sensor_fast_publish_period := 0
    mesh_sensor_sleep_max_time := 0
    presence_detected := false
    cadence :=
      { fast_cadence_period_divisor := 1
        trigger_type_percentage := false
        trigger_delta_down := 0
        trigger_delta_up := 2
        min_interval := 5
        fast_cadence_low := 0
        fast_cadence_high := 0 }
    cadence_timer := none
    blind_timer := none
    nvram_cadence := none }

/-- Claim C1 is false as stated: at `C1_cex_state` and tick time 50, the
strict precedence of the claim selects the delta branch (a delta trigger is
configured), whose condition fails, so the claim predicts suppression; the
code falls through to the fast-cadence branch and publishes. -/
theorem C1_counterexample :
    tick_decision_claim C1_cex_state 50 = false ∧
    (mesh_sensor_publish_timer_callback C1_cex_state 50).2 = 1 := by
  exact ⟨by decide, by decide⟩

/-- Characterization of the tick callback: it publishes exactly when
`tick_decision_amended` holds and always restarts the timer on the
post-decision state. -/
theorem tick_callback_eq (s : State) (now : Nat) :
    mesh_sensor_publish_timer_callback s now =
      (mesh_sensor_server_restart_timer
         (if tick_decision_amended s now then mesh_sensor_publish s now else s),
       if tick_decision_amended s now then 1 else 0) := by
  unfold mesh_sensor_publish_timer_callback tick_decision_amended
  cases hm : min_interval_suppressed s.cadence (now - s.mesh_sensor_pub_time) <;>
    cases hp : decide (s.mesh_sensor_publish_period ≠ 0) <;>
    cases hq : decide (now - s.mesh_sensor_pub_time ≥ s.mesh_sensor_publish_period) <;>
    cases hd : deltas_configured s.cadence <;>
    cases hh : delta_hit s.cadence (mesh_sensor_get_current_value s)
      s.mesh_sensor_pub_value <;>
    cases hf : decide (s.mesh_sensor_fast_publish_period ≠ 0) <;>
    cases hg : decide (now - s.mesh_sensor_pub_time ≥ s.mesh_sensor_fast_publish_period) <;>
    cases hw : fast_cadence_window s.cadence.fast_cadence_low
      s.cadence.fast_cadence_high (mesh_sensor_get_current_value s) <;>
    simp [hm, hp, hq, hd, hh, hf, hg, hw]

/-- Claim C1 as amended: on every tick the evaluator publishes exactly when
`tick_decision_amended` holds (minimum-interval suppression first, then
base period, then the delta triggers, then the fast-cadence branch, which
is also reached when configured delta triggers fail), and in every case the
returned state is `mesh_sensor_server_restart_timer` of the post-decision
state. -/
theorem C1_amended_thm (s : State) (now : Nat) :
    (mesh_sensor_publish_timer_callback s now).2 =
      (if tick_decision_amended s now then 1 else 0) ∧
    (mesh_sensor_publish_timer_callback s now).1 =
      mesh_sensor_server_restart_timer
        (if tick_decision_amended s now then mesh_sensor_publish s now else s) := by
  rw [tick_callback_eq]
  exact ⟨rfl, rfl⟩

/-- Claim C2 is false as stated: with publish period 320000 and divisor 32
the code arms the timer for the divided timeout 10000 and records 10000 as
the sleep budget, while the claim, whose `timeout` is never replaced by the
divided value, arms 320000 and records 320000. -/
theorem C2_counterexample :
    (mesh_sensor_server_restart_timer C2_cex_state).cadence_timer = some 10000 ∧
    (mesh_sensor_server_restart_timer C2_cex_state).mesh_sensor_sleep_max_time = 10000 ∧
    (restart_timer_claim C2_cex_state).cadence_timer = some 320000 ∧
    (restart_timer_claim C2_cex_state).mesh_sensor_sleep_max_time = 320000 := by
  exact ⟨by decide, by decide, by decide, by decide⟩

/-- Claim C2 as amended: `mesh_sensor_server_restart_timer` is exactly the
claimed algorithm once step 2 also replaces `timeout` by
`publish_period / fast_period_divisor`; in particular publish period 320000
with divisor 32 yields fast timeout 10000. -/
theorem C2_amended_thm :
    (∀ s : State, mesh_sensor_server_restart_timer s = restart_timer_amended s) ∧
    (mesh_sensor_server_restart_timer C2_cex_state).mesh_sensor_fast_publish_period
      = 10000 := by
  constructor
  · intro s
    unfold mesh_sensor_server_restart_timer restart_timer_amended
    split <;> rfl
  · decide

/-- Claim C3: the fast-cadence window test of the tick evaluator splits on
the configured bounds — normal range publishes iff low < value ≤ high,
inverted range iff value ≥ low or value < high, equal bounds iff
value = low — with the claimed boundary behaviour at (10,50) and (50,10). -/
theorem C3_thm :
    (∀ low high v : Int, low < high →
       (fast_cadence_window low high v = true ↔ (low < v ∧ v ≤ high))) ∧
    (∀ low high v : Int, high < low →
       (fast_cadence_window low high v = true ↔ (low ≤ v ∨ v < high))) ∧
    (∀ low v : Int, fast_cadence_window low low v = true ↔ v = low) ∧
    fast_cadence_window 10 50 10 = false ∧
    fast_cadence_window 10 50 11 = true ∧
    fast_cadence_window 10 50 50 = true ∧
    fast_cadence_window 10 50 51 = false ∧
    fast_cadence_window 50 10 60 = true ∧
    fast_cadence_window 50 10 5 = true ∧
    fast_cadence_window 50 10 30 = false := by
  refine ⟨?_, ?_, ?_, by decide, by decide, by decide, by decide,
    by decide, by decide, by decide⟩
  · intro low high v h
    simp [fast_cadence_window, h]
  · intro low high v h
    have h' : ¬ (high > low) := not_lt.mpr h.le
    simp [fast_cadence_window, h, h']
  · intro low v
    simp [fast_cadence_window]

/-- Witness for claim C3 at concrete windows: the normal-range case at
bounds (10,50) with value 11 and the inverted-range case at bounds (50,10)
with value 5. -/
theorem C3_witness :
    ((10:Int) < 50 ∧
      (fast_cadence_window 10 50 11 = true ↔ ((10:Int) < 11 ∧ (11:Int) ≤ 50))) ∧
    ((10:Int) < 50 ∧
      (fast_cadence_window 50 10 5 = true ↔ ((50:Int) ≤ 5 ∨ (5:Int) < 10))) := by
  exact ⟨⟨by decide, C3_thm.1 10 50 11 (by decide)⟩,
         ⟨by decide, C3_thm.2.1 50 10 5 (by decide)⟩⟩

/-- Claim C5: with publish period 0 and a fully unconfigured cadence, a
presence edge raising a false-to-true transition publishes exactly once, a
blind-timer expiry raising a true-to-false transition publishes exactly
once, and raw events that do not change the presence state publish
nothing. -/
theorem C5_thm (s : State) (now : Nat)
    (hper : s.mesh_sensor_publish_period = 0)
    (hdiv : s.cadence.fast_cadence_period_divisor = 1)
    (hup : s.cadence.trigger_delta_up = 0)
    (hdown : s.cadence.trigger_delta_down = 0) :
    (s.presence_detected = false → (e93196_int_proc s now).2 = 1) ∧
    (s.presence_detected = true → (e93196_int_proc s now).2 = 0) ∧
    (s.presence_detected = true →
      (mesh_sensor_presence_detected_timer_callback s now).2 = 1) ∧
    (s.presence_detected = false →
      (mesh_sensor_presence_detected_timer_callback s now).2 = 0) := by
  refine ⟨?_, ?_, ?_, ?_⟩ <;> intro hpres <;>
    simp [e93196_int_proc, mesh_sensor_presence_detected_timer_callback,
      mesh_sensor_value_changed, hpres, hper, hdiv, hup, hdown]

/-- Witness for claim C5 at `C5_wit_state`: an edge event from the
not-detected state publishes exactly once. -/
theorem C5_witness :
    C5_wit_state.mesh_sensor_publish_period = 0 ∧
    C5_wit_state.cadence.fast_cadence_period_divisor = 1 ∧
    C5_wit_state.cadence.trigger_delta_up = 0 ∧
    C5_wit_state.cadence.trigger_delta_down = 0 ∧
    (e93196_int_proc C5_wit_state 3).2 = 1 :=
  ⟨rfl, rfl, rfl, rfl, (C5_thm C5_wit_state 3 rfl rfl rfl rfl).1 rfl⟩

/-- Claim C6: in percentage trigger mode the delta test of the tick
evaluator equals the claimed form — the up case evaluated only when the
current value strictly exceeds the last published value and the down case
only when it is strictly below, basis points computed as the difference
times 10000 divided by the current value in both directions, publishing on
strict excess over the configured trigger delta. -/
theorem C6_thm (c : Cadence) (current pub : Int)
    (hp : c.trigger_type_percentage = true) :
    delta_hit c current pub = percent_delta_claim c current pub := by
  unfold delta_hit
  rw [hp]
  unfold percent_delta_hit percent_delta_claim percent_down_taken percent_up_taken
  by_cases h1 : pub < current
  · have h2 : ¬ current < pub := lt_asymm h1
    simp [h1, h2]
  · simp [h1, Bool.and_assoc]

/-- Witness for claim C6 at `C6_wit_cadence` with current value 3 and last
published value 1. -/
theorem C6_witness :
    C6_wit_cadence.trigger_type_percentage = true ∧
    delta_hit C6_wit_cadence 3 1 = percent_delta_claim C6_wit_cadence 3 1 :=
  ⟨rfl, C6_thm C6_wit_cadence 3 1 rfl⟩

/-- Claim C7: the period-change notification returns false and leaves the
state untouched unless the target addresses the motion-sensor element, the
Bluetooth SIG company and the sensor-server model; on a match it stores the
new period, restarts the cadence timer, resets the publication timestamp to
0 and returns true. -/
theorem C7_thm (element_idx company_id model_id period : Nat) (s : State) :
    ((element_idx ≠ MESH_MOTION_SENSOR_INDEX ∨
        company_id ≠ MESH_COMPANY_ID_BT_SIG ∨
        model_id ≠ WICED_BT_MESH_CORE_MODEL_ID_SENSOR_SRV) →
      mesh_app_notify_period_set element_idx company_id model_id period s
        = (false, s)) ∧
    (element_idx = MESH_MOTION_SENSOR_INDEX →
      company_id = MESH_COMPANY_ID_BT_SIG →
      model_id = WICED_BT_MESH_CORE_MODEL_ID_SENSOR_SRV →
      mesh_app_notify_period_set element_idx company_id model_id period s
        = (true,
            { mesh_sensor_server_restart_timer
                { s with mesh_sensor_publish_period := period } with
              mesh_sensor_pub_time := 0 })) := by
  constructor
  · intro h
    unfold mesh_app_notify_period_set
    rw [if_pos h]
  · intro h1 h2 h3
    unfold mesh_app_notify_period_set
    rw [if_neg]
    push_neg
    exact ⟨h1, h2, h3⟩

/-- Witness for claim C7: a notification for element 1 is rejected with the
state unchanged, and a matching notification for element 0 is accepted. -/
theorem C7_witness :
    ((1 : Nat) ≠ MESH_MOTION_SENSOR_INDEX ∧
      mesh_app_notify_period_set 1 MESH_COMPANY_ID_BT_SIG
        WICED_BT_MESH_CORE_MODEL_ID_SENSOR_SRV 320000 C7_wit_state
        = (false, C7_wit_state)) ∧
    mesh_app_notify_period_set MESH_MOTION_SENSOR_INDEX MESH_COMPANY_ID_BT_SIG
      WICED_BT_MESH_CORE_MODEL_ID_SENSOR_SRV 320000 C7_wit_state
      = (true,
          { mesh_sensor_server_restart_timer
              { C7_wit_state with mesh_sensor_publish_period := 320000 } with
            mesh_sensor_pub_time := 0 }) :=
  ⟨⟨by decide,
    (C7_thm 1 MESH_COMPANY_ID_BT_SIG WICED_BT_MESH_CORE_MODEL_ID_SENSOR_SRV
      320000 C7_wit_state).1 (Or.inl (by decide))⟩,
   (C7_thm MESH_MOTION_SENSOR_INDEX MESH_COMPANY_ID_BT_SIG
      WICED_BT_MESH_CORE_MODEL_ID_SENSOR_SRV 320000 C7_wit_state).2 rfl rfl rfl⟩

/-- Restarting the cadence timer changes only the timer, the fast publish
period and the sleep budget: the cadence, the publish period, the
publication record, the presence flag and the NVRAM copy are untouched. -/
theorem restart_timer_preserves (s : State) :
    (mesh_sensor_server_restart_timer s).cadence = s.cadence ∧
    (mesh_sensor_server_restart_timer s).mesh_sensor_publish_period
      = s.mesh_sensor_publish_period ∧
    (mesh_sensor_server_restart_timer s).mesh_sensor_pub_time
      = s.mesh_sensor_pub_time ∧
    (mesh_sensor_server_restart_timer s).mesh_sensor_pub_value
      = s.mesh_sensor_pub_value ∧
    (mesh_sensor_server_restart_timer s).presence_detected
      = s.presence_detected ∧
    (mesh_sensor_server_restart_timer s).nvram_cadence = s.nvram_cadence := by
  unfold mesh_sensor_server_restart_timer
  by_cases h : s.mesh_sensor_publish_period = 0 <;> simp [h]

/-- Claim C8 is false as stated: fed the malformed cadence
`C8_bad_cadence` (divisor 0), the handler does not reject it — it leaves it
applied as the live cadence and persists it to NVRAM. -/
theorem C8_counterexample :
    C8_bad_cadence.fast_cadence_period_divisor = 0 ∧
    (mesh_sensor_server_process_cadence_changed C8_cex_state).cadence
      = C8_bad_cadence ∧
    (mesh_sensor_server_process_cadence_changed C8_cex_state).nvram_cadence
      = some C8_bad_cadence :=
  ⟨by decide, by decide, by decide⟩

/-- Claim C8 as amended: the cadence-change handler performs no validation
and has no rejection channel — for every state, malformed cadence included,
it persists the cadence already stored by the models library to NVRAM,
restarts the cadence timer and resets the publication timestamp to 0,
leaving the live cadence unchanged. -/
theorem C8_amended_thm (s : State) :
    mesh_sensor_server_process_cadence_changed s
      = { mesh_sensor_server_restart_timer
            { s with nvram_cadence := some s.cadence } with
          mesh_sensor_pub_time := 0 } ∧
    (mesh_sensor_server_process_cadence_changed s).cadence = s.cadence ∧
    (mesh_sensor_server_process_cadence_changed s).nvram_cadence
      = some s.cadence ∧
    (mesh_sensor_server_process_cadence_changed s).mesh_sensor_pub_time = 0 := by
  refine ⟨rfl, ?_, ?_, rfl⟩
  · exact (restart_timer_preserves { s with nvram_cadence := some s.cadence }).1
  · exact (restart_timer_preserves
      { s with nvram_cadence := some s.cadence }).2.2.2.2.2

/-- Claim C9: at `C9_state` the tick evaluator reaches the percentage
delta-down division with divisor `mesh_sensor_get_current_value` equal to
0 — the division is not guarded against a zero divisor; dually, whenever
the delta-up branch is taken with a nonnegative last published value, its
divisor is at least 1. -/
theorem C9_thm :
    (tick_percent_down_division_reached C9_state 0 = true ∧
      mesh_sensor_get_current_value C9_state = 0 ∧
      C9_state.mesh_sensor_pub_value = 1 ∧
      C9_state.cadence.trigger_delta_down ≠ 0) ∧
    (∀ (c : Cadence) (current pub : Int), 0 ≤ pub →
      percent_up_taken c current pub = true → 1 ≤ current) := by
  refine ⟨by decide, ?_⟩
  intro c current pub hpub h
  simp [percent_up_taken] at h
  omega

/-- Witness for claim C9 at `C9_up_cadence` with current value 1 and last
published value 0. -/
theorem C9_witness :
    (0:Int) ≤ 0 ∧ percent_up_taken C9_up_cadence 1 0 = true ∧ (1:Int) ≤ 1 :=
  ⟨by decide, by decide, C9_thm.2 C9_up_cadence 1 0 (by decide) (by decide)⟩

/-- Claim C10: in the event-driven path with publish period 0, a configured
cadence and the minimum interval elapsed, the publish condition is exactly
the asymmetric comparison of the source — down requires the current value
below last-published minus delta-down, while up requires the current value
above last-published MINUS delta-up — so with a delta-up trigger configured
any current value above that difference, in particular any strict increase,
publishes. -/
theorem C10_thm (s : State) (now : Nat)
    (hper : s.mesh_sensor_publish_period = 0)
    (hconf : ¬(s.cadence.fast_cadence_period_divisor = 1 ∧
        s.cadence.trigger_delta_up = 0 ∧ s.cadence.trigger_delta_down = 0))
    (hmin : s.mesh_sensor_pub_time + s.cadence.min_interval ≤ now) :
    ((mesh_sensor_value_changed s now).2 = 1 ↔
      ((s.cadence.trigger_delta_down ≠ 0 ∧
          mesh_sensor_get_current_value s <
            s.mesh_sensor_pub_value - (s.cadence.trigger_delta_down : Int)) ∨
       (s.cadence.trigger_delta_up ≠ 0 ∧
          mesh_sensor_get_current_value s >
            s.mesh_sensor_pub_value - (s.cadence.trigger_delta_up : Int)))) ∧
    (s.cadence.trigger_delta_up ≠ 0 →
      mesh_sensor_get_current_value s >
        s.mesh_sensor_pub_value - (s.cadence.trigger_delta_up : Int) →
      (mesh_sensor_value_changed s now).2 = 1) ∧
    (s.cadence.trigger_delta_up ≠ 0 →
      s.mesh_sensor_pub_value < mesh_sensor_get_current_value s →
      (mesh_sensor_value_changed s now).2 = 1) := by
  have hnot : ¬ (s.mesh_sensor_pub_time + s.cadence.min_interval > now) :=
    not_lt.mpr hmin
  have hkey : (mesh_sensor_value_changed s now).2 = 1 ↔
      ((s.cadence.trigger_delta_down ≠ 0 ∧
          mesh_sensor_get_current_value s <
            s.mesh_sensor_pub_value - (s.cadence.trigger_delta_down : Int)) ∨
       (s.cadence.trigger_delta_up ≠ 0 ∧
          mesh_sensor_get_current_value s >
            s.mesh_sensor_pub_value - (s.cadence.trigger_delta_up : Int))) := by
    by_cases hP : ((s.cadence.trigger_delta_down ≠ 0 ∧
          mesh_sensor_get_current_value s <
            s.mesh_sensor_pub_value - (s.cadence.trigger_delta_down : Int)) ∨
       (s.cadence.trigger_delta_up ≠ 0 ∧
          mesh_sensor_get_current_value s >
            s.mesh_sensor_pub_value - (s.cadence.trigger_delta_up : Int)))
    · unfold mesh_sensor_value_changed
      simp [hper, hconf, hnot, hP]
    · unfold mesh_sensor_value_changed
      simp [hper, hconf, hnot, hP]
  refine ⟨hkey, ?_, ?_⟩
  · intro h1 h2
    exact hkey.mpr (Or.inr ⟨h1, h2⟩)
  · intro h1 h2
    refine hkey.mpr (Or.inr ⟨h1, ?_⟩)
    have : (1 : Int) ≤ (s.cadence.trigger_delta_up : Int) := by
      omega
    omega

/-- Witness for claim C10 at `C10_wit_state` and time 10: the value rose
from 0 to 1, less than the configured delta-up of 2, and the event-driven
path still publishes. -/
theorem C10_witness :
    C10_wit_state.mesh_sensor_publish_period = 0 ∧
    C10_wit_state.cadence.trigger_delta_up ≠ 0 ∧
    C10_wit_state.mesh_sensor_pub_time + C10_wit_state.cadence.min_interval ≤ 10 ∧
    C10_wit_state.mesh_sensor_pub_value
      < mesh_sensor_get_current_value C10_wit_state ∧
    (mesh_sensor_value_changed C10_wit_state 10).2 = 1 :=
  ⟨rfl, by decide, by decide, by decide,
    (C10_thm C10_wit_state 10 rfl (by decide) (by decide)).2.2
      (by decide) (by decide)⟩

/-- Monotonicity bound of `times_mono` can be weakened. -/
theorem times_mono_of_le {a b : Nat} {es : List MeshEvent} (h : b ≤ a)
    (ha : times_mono a es = true) : times_mono b es = true := by
  cases es with
  | nil => rfl
  | cons e es =>
    simp only [times_mono, Bool.and_eq_true, decide_eq_true_eq] at ha ⊢
    exact ⟨le_trans h ha.1, ha.2⟩

/-- Spacing facts for one `mesh_sensor_value_changed` call in a state whose
cadence is not fully unconfigured: the cadence and publish period are
preserved; without a publish the publication timestamp is preserved; a
publish implies the minimum interval had elapsed and stamps the timestamp
with the call time. -/
theorem value_changed_spacing (s : State) (now : Nat)
    (hconf : ¬(s.mesh_sensor_publish_period = 0 ∧
        s.cadence.fast_cadence_period_divisor = 1 ∧
        s.cadence.trigger_delta_up = 0 ∧ s.cadence.trigger_delta_down = 0)) :
    (mesh_sensor_value_changed s now).1.cadence = s.cadence ∧
    (mesh_sensor_value_changed s now).1.mesh_sensor_publish_period
      = s.mesh_sensor_publish_period ∧
    ((mesh_sensor_value_changed s now).2 = 0 →
      (mesh_sensor_value_changed s now).1.mesh_sensor_pub_time
        = s.mesh_sensor_pub_time) ∧
    ((mesh_sensor_value_changed s now).2 ≠ 0 →
      s.mesh_sensor_pub_time + s.cadence.min_interval ≤ now ∧
      (mesh_sensor_value_changed s now).1.mesh_sensor_pub_time = now) := by
  unfold mesh_sensor_value_changed
  split
  · exact ⟨rfl, rfl, fun _ => rfl, fun h => absurd rfl h⟩
  · rename_i hper
    split
    · rename_i hunc
      exact absurd ⟨not_not.mp hper, hunc.1, hunc.2.1, hunc.2.2⟩ hconf
    · split
      · exact ⟨rfl, rfl, fun _ => rfl, fun h => absurd rfl h⟩
      · rename_i hmin
        split
        · refine ⟨(restart_timer_preserves (mesh_sensor_publish s now)).1,
            (restart_timer_preserves (mesh_sensor_publish s now)).2.1,
            fun h => absurd h one_ne_zero, fun _ => ⟨not_lt.mp hmin, ?_⟩⟩
          exact (restart_timer_preserves (mesh_sensor_publish s now)).2.2.1
        · exact ⟨rfl, rfl, fun _ => rfl, fun h => absurd rfl h⟩

/-- Spacing facts for one tick of the cadence timer when a minimum interval
is configured. -/
theorem tick_spacing (s : State) (now : Nat)
    (hmin : s.cadence.min_interval ≠ 0) :
    (mesh_sensor_publish_timer_callback s now).1.cadence = s.cadence ∧
    (mesh_sensor_publish_timer_callback s now).1.mesh_sensor_publish_period
      = s.mesh_sensor_publish_period ∧
    ((mesh_sensor_publish_timer_callback s now).2 = 0 →
      (mesh_sensor_publish_timer_callback s now).1.mesh_sensor_pub_time
        = s.mesh_sensor_pub_time) ∧
    ((mesh_sensor_publish_timer_callback s now).2 ≠ 0 →
      s.mesh_sensor_pub_time + s.cadence.min_interval ≤ now ∧
      (mesh_sensor_publish_timer_callback s now).1.mesh_sensor_pub_time
        = now) := by
  rw [tick_callback_eq]
  by_cases hd : tick_decision_amended s now = true
  · have hsup : min_interval_suppressed s.cadence
        (now - s.mesh_sensor_pub_time) = false := by
      cases hcase : min_interval_suppressed s.cadence
          (now - s.mesh_sensor_pub_time) with
      | false => rfl
      | true =>
        unfold tick_decision_amended at hd
        simp [hcase] at hd
    have helapsed : s.cadence.min_interval ≤ now - s.mesh_sensor_pub_time := by
      simp only [min_interval_suppressed, Bool.and_eq_false_iff,
        decide_eq_false_iff_not, not_not] at hsup
      rcases hsup with h | h
      · exact absurd h hmin
      · omega
    have hle : s.mesh_sensor_pub_time + s.cadence.min_interval ≤ now := by
      omega
    simp only [hd, if_true]
    exact ⟨(restart_timer_preserves (mesh_sensor_publish s now)).1,
      (restart_timer_preserves (mesh_sensor_publish s now)).2.1,
      fun h => absurd h one_ne_zero,
      fun _ => ⟨hle, (restart_timer_preserves (mesh_sensor_publish s now)).2.2.1⟩⟩
  · simp only [Bool.not_eq_true] at hd
    simp only [hd, Bool.false_eq_true, if_false]
    exact ⟨(restart_timer_preserves s).1, (restart_timer_preserves s).2.1,
      fun _ => (restart_timer_preserves s).2.2.1, fun h => absurd rfl h⟩

/-- Spacing facts for one event step when a minimum interval is configured
and the cadence is not fully unconfigured: the configuration is preserved,
a non-publishing step preserves the publication timestamp, and a publishing
step happens at least one minimum interval after the previous publication
and stamps the timestamp with the event time. -/
theorem step_spacing (s : State) (e : MeshEvent)
    (hmin : s.cadence.min_interval ≠ 0)
    (hconf : ¬(s.mesh_sensor_publish_period = 0 ∧
        s.cadence.fast_cadence_period_divisor = 1 ∧
        s.cadence.trigger_delta_up = 0 ∧ s.cadence.trigger_delta_down = 0)) :
    (step s e).1.cadence = s.cadence ∧
    (step s e).1.mesh_sensor_publish_period = s.mesh_sensor_publish_period ∧
    ((step s e).2 = 0 →
      (step s e).1.mesh_sensor_pub_time = s.mesh_sensor_pub_time) ∧
    ((step s e).2 ≠ 0 →
      s.mesh_sensor_pub_time + s.cadence.min_interval ≤ e.time ∧
      (step s e).1.mesh_sensor_pub_time = e.time) := by
  cases e with
  | tick t =>
    simp only [step, MeshEvent.time]
    exact tick_spacing s t hmin
  | edge t =>
    simp only [step, MeshEvent.time]
    unfold e93196_int_proc
    split
    · exact value_changed_spacing _ t hconf
    · exact ⟨rfl, rfl, fun _ => rfl, fun h => absurd rfl h⟩
  | blind t =>
    simp only [step, MeshEvent.time]
    unfold mesh_sensor_presence_detected_timer_callback
    split
    · exact value_changed_spacing _ t hconf
    · exact ⟨rfl, rfl, fun _ => rfl, fun h => absurd rfl h⟩

/-- Spacing invariant over a run: with a configured minimum interval, a not
fully unconfigured cadence and monotone event times bounded below by the
last publication timestamp, every publish in the run happens at least one
minimum interval after that timestamp, and the publish timestamps are
pairwise at least one minimum interval apart. -/
theorem run_spacing (es : List MeshEvent) :
    ∀ (s : State),
      s.cadence.min_interval ≠ 0 →
      ¬(s.mesh_sensor_publish_period = 0 ∧
        s.cadence.fast_cadence_period_divisor = 1 ∧
        s.cadence.trigger_delta_up = 0 ∧ s.cadence.trigger_delta_down = 0) →
      times_mono s.mesh_sensor_pub_time es = true →
      (∀ x ∈ (run s es).2,
         s.mesh_sensor_pub_time + s.cadence.min_interval ≤ x) ∧
      (run s es).2.Pairwise
        (fun a b => a + s.cadence.min_interval ≤ b) := by
  induction es with
  | nil =>
    intro s _ _ _
    simp [run]
  | cons e es ih =>
    intro s hmin hconf hmono
    obtain ⟨hm1, hm2⟩ : s.mesh_sensor_pub_time ≤ e.time ∧
        times_mono e.time es = true := by
      simpa [times_mono] using hmono
    have hstep := step_spacing s e hmin hconf
    have hmin1 : (step s e).1.cadence.min_interval ≠ 0 := by
      rw [hstep.1]; exact hmin
    have hconf1 : ¬((step s e).1.mesh_sensor_publish_period = 0 ∧
        (step s e).1.cadence.fast_cadence_period_divisor = 1 ∧
        (step s e).1.cadence.trigger_delta_up = 0 ∧
        (step s e).1.cadence.trigger_delta_down = 0) := by
      rw [hstep.1, hstep.2.1]; exact hconf
    have hrun : run s (e :: es)
        = ((run (step s e).1 es).1,
           (if (step s e).2 ≠ 0 then [e.time] else [])
             ++ (run (step s e).1 es).2) := rfl
    by_cases h2 : (step s e).2 = 0
    · have hpt : (step s e).1.mesh_sensor_pub_time = s.mesh_sensor_pub_time :=
        hstep.2.2.1 h2
      have hih := ih (step s e).1 hmin1 hconf1
        (by rw [hpt]; exact times_mono_of_le hm1 hm2)
      rw [hpt, hstep.1] at hih
      rw [hrun]
      simpa [h2] using hih
    · obtain ⟨hsp, hpt⟩ := hstep.2.2.2 h2
      have hih := ih (step s e).1 hmin1 hconf1 (by rw [hpt]; exact hm2)
      rw [hpt, hstep.1] at hih
      rw [hrun, if_pos h2]
      simp only [List.cons_append, List.nil_append]
      constructor
      · intro x hx
        rcases List.mem_cons.mp hx with hhead | htail
        · omega
        · have hx2 := hih.1 x htail
          omega
      · exact List.Pairwise.cons (fun x hx => hih.1 x hx) hih.2

/-- Claim C4 is false as stated: at `C4_cex_state` the minimum interval is
20000 ms, yet a presence edge at time 0 followed by the blind-timer expiry
at its armed deadline 14000 produces two publishes only 14000 ms apart —
the event-driven path for a fully unconfigured cadence never consults the
minimum interval. -/
theorem C4_counterexample :
    C4_cex_state.cadence.min_interval = 20000 ∧
    C4_cex_state.mesh_sensor_publish_period = 0 ∧
    (run C4_cex_state [MeshEvent.edge 0, MeshEvent.blind 14000]).2
      = [0, 14000] ∧
    ¬((0 : Nat) + 20000 ≤ 14000) :=
  ⟨rfl, rfl, by decide, by decide⟩

/-- Claim C4 as amended: for every configuration with a nonzero minimum
interval I in which the cadence is not fully unconfigured while periodic
publishing is disabled (the exempt publish-on-every-change path), every run
of ticks, presence edges and blind expiries with monotone timestamps yields
publish times pairwise at least I apart. -/
theorem C4_amended_thm (s : State) (es : List MeshEvent)
    (hmin : s.cadence.min_interval ≠ 0)
    (hconf : ¬(s.mesh_sensor_publish_period = 0 ∧
        s.cadence.fast_cadence_period_divisor = 1 ∧
        s.cadence.trigger_delta_up = 0 ∧ s.cadence.trigger_delta_down = 0))
    (hmono : times_mono s.mesh_sensor_pub_time es = true) :
    (run s es).2.Pairwise
      (fun a b => a + s.cadence.min_interval ≤ b) :=
  (run_spacing es s hmin hconf hmono).2

/-- Witness for claim C4 at `C4_wit_state` with a single presence edge at
time 10, which publishes once. -/
theorem C4_witness :
    C4_wit_state.cadence.min_interval ≠ 0 ∧
    ¬(C4_wit_state.mesh_sensor_publish_period = 0 ∧
      C4_wit_state.cadence.fast_cadence_period_divisor = 1 ∧
      C4_wit_state.cadence.trigger_delta_up = 0 ∧
      C4_wit_state.cadence.trigger_delta_down = 0) ∧
    times_mono C4_wit_state.mesh_sensor_pub_time [MeshEvent.edge 10] = true ∧
    (run C4_wit_state [MeshEvent.edge 10]).2.Pairwise
      (fun a b => a + C4_wit_state.cadence.min_interval ≤ b) :=
  ⟨by decide, by decide, by decide,
    C4_amended_thm C4_wit_state [MeshEvent.edge 10]
      (by decide) (by decide) (by decide)⟩

end SensorMotion
